import Mathlib

/-!
Verification of the `@lume/variable` reactive-variable library.

The library's own code (`variable`, `autorun`, `circular`, `reactive` /
`reactify` / `_reactive`) wraps a fine-grained reactivity core
(`createSignal`, `createEffect`, `createRoot`, `untrack`) that is imported
from an external package and is not present in the repository sources.
That core is therefore modelled here from the specification's description
of Signals, Computations, the Tracking Context and synchronous depth-first
propagation, while the wrapper functions are translated directly from the
repository sources.

Computations are defunctionalized: the bodies of the client computations
appearing in the repository's test scenarios, and the bodies built
internally by `circular`, are written in a small command language `Cmd`
interpreted against an explicit `State`.  Possibly-divergent synchronous
propagation (the spec's "unbounded recursion failure") is modelled with a
fuel parameter: interpreter entry points return `none` when fuel runs out,
corresponding to stack exhaustion in the host.
-/

namespace LumeVariable

/-- Identifier of a Signal (index into the state's signal store). -/
abbrev SigId := Nat

/-- Identifier of a Computation (index into the state's computation store). -/
abbrev CompId := Nat

/-- Identifier of a circular-binding token (the `initial` closure variable
of one `circular` call). -/
abbrev TokId := Nat

/-- Runtime values.  `undef` is JavaScript `undefined`; `num` is a number.
`fnv b` is a function value: the library only ever constructs constant
thunks `() => value` (in the setter path of `variable`), so a function
value is represented by the value it returns when invoked; user-supplied
function values stored in a variable are never invoked by the library and
are likewise carried opaquely by this constructor. -/
inductive Value where
  | undef
  | num (n : Int)
  | fnv (b : Value)
deriving DecidableEq, Repr

/-- Expressions evaluated inside computation bodies.  Reading a variable
(`readV`) is the only effectful form: it registers a dependency edge with
the currently tracking computation.  `prevOr d` is the computation's
previous return value, defaulting to `d` when it is `undef` (first run);
`untrackE e` evaluates `e` with the tracking context suppressed, as the
spec describes for `untrack`. -/
inductive Expr where
  | lit (v : Value)
  | readV (s : SigId)
  | mul2 (e : Expr)
  | div2 (e : Expr)
  | inc (e : Expr)
  | prevOr (d : Value)
  | prevE
  | untrackE (e : Expr)
deriving DecidableEq, Repr

/-- Commands forming computation bodies.  `incr k` bumps an external
counter (the `count++` of the test scenarios); `writeV s e` is a variable
write call `v(e)`; `logE` / `logPrev` append to an observation log;
`setRes e` sets the value returned by the current run (the body's return
value); `untrackC c` runs `c` with tracking suppressed; `ifTok t c1 c2`
branches on a circular-binding token, and `setTok` assigns it; `ifEqK`
branches on a value comparison. -/
inductive Cmd where
  | skip
  | seq (a b : Cmd)
  | incr (k : Nat)
  | readE (e : Expr)
  | writeV (s : SigId) (e : Expr)
  | logE (e : Expr)
  | logPrev
  | setRes (e : Expr)
  | untrackC (c : Cmd)
  | ifTok (t : TokId) (c1 c2 : Cmd)
  | setTok (t : TokId) (b : Bool)
  | ifEqK (e : Expr) (v : Value) (c1 c2 : Cmd)
deriving DecidableEq, Repr

/-- A Computation: body, dependency set from its most recent run (Signals
it read, in first-read order), disposed flag, and the return value of its
previous run (passed to the body on the next run). -/
structure Comp where
  body : Cmd
  deps : List SigId
  disposed : Bool
  prevVal : Value
deriving DecidableEq, Repr

/-- Global state of the reactive system.  `sigVals` and `subs` are the
value and the ordered subscriber list of each Signal (indexed by `SigId`);
`comps` the computation store; `tokens` the circular-binding tokens;
`listener` the Tracking Context's active computation (none when idle or
inside `untrack`); `res` the return value being built by the innermost
running computation; `counters` the external counters incremented by test
bodies; `log` an observation log; `runs` counts computation executions. -/
structure State where
  sigVals : List Value
  subs : List (List CompId)
  comps : List Comp
  tokens : List Bool
  listener : Option CompId
  res : Value
  counters : List Int
  log : List Value
  runs : Nat
deriving DecidableEq, Repr

/-- Current value of a Signal. -/
def sigValue (st : State) (s : SigId) : Value :=
  st.sigVals.getD s Value.undef

/-- Subscriber list of a Signal. -/
def sigSubs (st : State) (s : SigId) : List CompId :=
  st.subs.getD s []

/-- Value of a circular-binding token. -/
def tokVal (st : State) (t : TokId) : Bool :=
  st.tokens.getD t true

/-- Record a read of Signal `s`: if a computation is actively tracking, it
is appended to the Signal's subscriber list (no duplicates) and the Signal
is appended to the computation's in-progress dependency set (no
duplicates), exactly as the spec's `read()` prescribes.  Otherwise the
state is unchanged. -/
def trackRead (st : State) (s : SigId) : State :=
  match st.listener with
  | none => st
  | some cid =>
    let oldSubs := st.subs.getD s []
    let newSubs := if cid ∈ oldSubs then oldSubs else oldSubs ++ [cid]
    let st1 := { st with subs := st.subs.set s newSubs }
    match st1.comps.get? cid with
    | none => st1
    | some c =>
      let newDeps := if s ∈ c.deps then c.deps else c.deps ++ [s]
      { st1 with comps := st1.comps.set cid { c with deps := newDeps } }

/-- Evaluate an expression.  Expressions never trigger propagation, so no
fuel is needed; the returned state differs only in tracking bookkeeping. -/
def evalExpr (prev : Value) : State → Expr → State × Value
  | st, .lit v => (st, v)
  | st, .readV s => (trackRead st s, sigValue st s)
  | st, .mul2 e =>
    let (st1, v) := evalExpr prev st e
    (st1, match v with | .num n => .num (2 * n) | _ => .undef)
  | st, .div2 e =>
    let (st1, v) := evalExpr prev st e
    (st1, match v with | .num n => .num (n / 2) | _ => .undef)
  | st, .inc e =>
    let (st1, v) := evalExpr prev st e
    (st1, match v with | .num n => .num (n + 1) | _ => .undef)
  | st, .prevOr d => (st, if prev = .undef then d else prev)
  | st, .prevE => (st, prev)
  | st, .untrackE e =>
    let saved := st.listener
    let (st1, v) := evalExpr prev { st with listener := none } e
    ({ st1 with listener := saved }, v)

/-- Solid-style setter application, modelled from the spec's `write`
together with the updater convention the repository's wrapper relies on:
a function argument is invoked with the previous value and its result is
stored, a non-function argument is stored as-is.  The wrapper always
passes the constant thunk `() => value`, whose invocation returns the
wrapped value regardless of the previous value. -/
def applyUpdater : Value → Value → Value
  | .fnv b, _ => b
  | v, _ => v

/-- Remove a computation from the subscriber lists of the given Signals. -/
def unsubscribeAll (subs : List (List CompId)) (cid : CompId) : List SigId → List (List CompId)
  | [] => subs
  | s :: rest => unsubscribeAll (subs.set s ((subs.getD s []).filter (fun c => c ≠ cid))) cid rest

/-- Re-run each computation of a subscriber-list snapshot in order, using
the supplied re-run routine `runC`. -/
def notifyF (runC : State → CompId → Option State) : State → List CompId → Option State
  | st, [] => some st
  | st, cid :: rest => (runC st cid).bind (fun st1 => notifyF runC st1 rest)

/-- Write a value into a Signal and synchronously propagate: the value is
stored unconditionally (the wrapper creates its signals with
`equals: false`, and the spec's default equality policy never skips
notification), then each subscriber re-runs in subscriber order,
depth-first, before the write returns. -/
def writeSignalF (runC : State → CompId → Option State) (st : State) (s : SigId)
    (v : Value) : Option State :=
  let st1 := { st with sigVals := st.sigVals.set s v }
  notifyF runC st1 (sigSubs st1 s)

/-- Execute a command with the given previous-run value, re-running
notified subscribers with `runC`.  Translated from the client bodies'
JavaScript; `writeV` follows the repository's `variable` wrapper: an
`undefined` argument is a read, otherwise the value is wrapped in a thunk
and handed to the underlying signal setter. -/
def execCmdF (runC : State → CompId → Option State) (prev : Value) :
    State → Cmd → Option State
  | st, .skip => some st
  | st, .seq a b => (execCmdF runC prev st a).bind (fun st1 => execCmdF runC prev st1 b)
  | st, .incr k =>
    some { st with counters := st.counters.set k (st.counters.getD k 0 + 1) }
  | st, .readE e => some (evalExpr prev st e).1
  | st, .writeV s e =>
    let (st1, v) := evalExpr prev st e
    if v = .undef then some (trackRead st1 s)
    else writeSignalF runC st1 s (applyUpdater (.fnv v) (sigValue st1 s))
  | st, .logE e =>
    let (st1, v) := evalExpr prev st e
    some { st1 with log := st1.log ++ [v] }
  | st, .logPrev => some { st with log := st.log ++ [prev] }
  | st, .setRes e =>
    let (st1, v) := evalExpr prev st e
    some { st1 with res := v }
  | st, .untrackC c =>
    (execCmdF runC prev { st with listener := none } c).bind
      (fun st1 => some { st1 with listener := st.listener })
  | st, .ifTok t c1 c2 =>
    if tokVal st t then execCmdF runC prev st c1 else execCmdF runC prev st c2
  | st, .setTok t b => some { st with tokens := st.tokens.set t b }
  | st, .ifEqK e v c1 c2 =>
    let (st1, w) := evalExpr prev st e
    if w = v then execCmdF runC prev st1 c1 else execCmdF runC prev st1 c2

/-- Execute a Computation, as the spec's `execute(fn)`: a disposed
computation is a no-op; otherwise its dependency set is cleared, the body
runs with the computation pushed as the Tracking Context listener and with
its previous return value, the listener and the result slot are restored,
the run's result is stored as the next `prevVal`, and the computation is
unsubscribed from every Signal of the old dependency set that it did not
re-read (stale edges removed, positions of re-read Signals preserved).
The fuel bounds the depth of nested synchronous re-runs, modelling the
host's call stack; exhaustion (`none`) is the spec's unbounded-recursion
failure. -/
def runComp : Nat → State → CompId → Option State
  | 0, _, _ => none
  | fuel + 1, st, cid =>
    match st.comps.get? cid with
    | none => some st
    | some c =>
      if c.disposed then some st
      else
        let st1 := { st with
          comps := st.comps.set cid { c with deps := [] },
          listener := some cid,
          res := Value.undef,
          runs := st.runs + 1 }
        (execCmdF (runComp fuel) c.prevVal st1 c.body).bind (fun st2 =>
          let newDeps := match st2.comps.get? cid with
            | some c2 => c2.deps
            | none => []
          let stale := c.deps.filter (fun s => ¬ s ∈ newDeps)
          let st3 := { st2 with
            subs := unsubscribeAll st2.subs cid stale,
            listener := st.listener,
            res := st.res }
          match st3.comps.get? cid with
          | none => some st3
          | some c3 =>
            some { st3 with comps := st3.comps.set cid { c3 with prevVal := st2.res } })

/-- Top-level command execution with a propagation-depth budget. -/
def execCmd (fuel : Nat) (prev : Value) (st : State) (c : Cmd) : Option State :=
  execCmdF (runComp fuel) prev st c

/-- Top-level signal write with a propagation-depth budget. -/
def writeSignal (fuel : Nat) (st : State) (s : SigId) (v : Value) : Option State :=
  writeSignalF (runComp fuel) st s v

/-- Fresh empty state with `n` external client counters allocated (the
scenarios' plain mutable `let count = 0` variables). -/
def initState (n : Nat) : State :=
  ⟨[], [], [], [], none, .undef, List.replicate n 0, [], 0⟩

/-- Allocation performed by `variable(value)`: a fresh Signal holding the
initial value, with an empty subscriber list (modelled from the spec's
`createVariable`); returns the new Signal's id. -/
def newVariable (st : State) (v : Value) : State × SigId :=
  ({ st with sigVals := st.sigVals ++ [v], subs := st.subs ++ [[]] }, st.sigVals.length)

/-- Underlying signal setter (modelled from the spec's `write` with the
updater convention the wrapper relies on): apply the updater to the
current value, store the result unconditionally, propagate synchronously. -/
def setSignal (fuel : Nat) (st : State) (s : SigId) (arg : Value) : Option State :=
  writeSignal fuel st s (applyUpdater arg (sigValue st s))

/-- Call form of a Variable, translated from the source wrapper:
`(value) => { if (typeof value === 'undefined') return get(); set(() => value); return value }`.
An `undefined` argument is a (tracked) read returning the current value;
otherwise the value is wrapped in a constant thunk, handed to the
underlying setter, and returned. -/
def varCall (fuel : Nat) (st : State) (s : SigId) (arg : Value) : Option (State × Value) :=
  if arg = .undef then some (trackRead st s, sigValue st s)
  else (setSignal fuel st s (.fnv arg)).map (fun st1 => (st1, arg))

/-- The handle returned by `variable(value)`: the callable itself plus the
named `get`/`set` operations and the array-destructuring slots `[0]`/`[1]`. -/
structure VariableHandle where
  call : Value → Nat → State → Option (State × Value)
  get : Nat → State → Option (State × Value)
  set : Value → Nat → State → Option (State × Value)
  idx0 : Nat → State → Option (State × Value)
  idx1 : Value → Nat → State → Option (State × Value)

/-- Construction of the Variable handle, translated from the source:
`readVariable` is `function () { return this() }` bound to the callable
(a zero-argument call, i.e. argument `undefined`), `writeVariable` is
`function (value) { return this(value) }`; the same two bound functions
are stored as `get`/`set` and as the destructuring slots `[0]`/`[1]`. -/
def mkVariable (s : SigId) : VariableHandle where
  call := fun v fuel st => varCall fuel st s v
  get := fun fuel st => varCall fuel st s .undef
  set := fun v fuel st => varCall fuel st s v
  idx0 := fun fuel st => varCall fuel st s .undef
  idx1 := fun v fuel st => varCall fuel st s v

/-- Model of `autorun(f)` (spec `createAutorun`): create a root
Computation for the body and execute it once synchronously; the returned
computation id is what the stop function closes over. -/
def autorunM (fuel : Nat) (st : State) (body : Cmd) : Option (State × CompId) :=
  let cid := st.comps.length
  let st1 := { st with comps := st.comps ++ [⟨body, [], false, .undef⟩] }
  (runComp fuel st1 cid).map (fun st2 => (st2, cid))

/-- Disposal performed by the stop function returned from `autorun`
(spec `dispose()`): remove the computation from every Signal's subscriber
list, clear its dependency set and mark it dead, so that subsequent
notifications are no-ops. -/
def stopM (st : State) (cid : CompId) : State :=
  { st with
    subs := st.subs.map (fun l => l.filter (fun c => c ≠ cid)),
    comps :=
      match st.comps.get? cid with
      | none => st.comps
      | some c => st.comps.set cid { c with deps := [], disposed := true } }

/-- Body of one internal computation of `circular`, translated from the
source:

    const v = first()
    if (initial && !(initial = false)) setSecond(v)
    else initial = true

Reading the token as `true` flips it to `false` and invokes the partner's
setter (the assignment `initial = false` happens inside the condition and
the branch taken is the propagating one); reading it as `false` flips it
to `true` without propagating.  The scenario's setters are closures that
ignore the argument `v`, so the partner setter is a command. -/
def circularBody (t : TokId) (selfSig : SigId) (partnerSetter : Cmd) : Cmd :=
  .seq (.readE (.readV selfSig))
    (.ifTok t (.seq (.setTok t false) partnerSetter) (.setTok t true))

/-- Token discipline exactly as claim C2 words it (observe `true`: flip to
`false` and do not propagate; observe `false`: flip to `true` and invoke
the partner's setter), for comparison against `circularBody`. -/
def circularBodyClaim (t : TokId) (selfSig : SigId) (partnerSetter : Cmd) : Cmd :=
  .seq (.readE (.readV selfSig))
    (.ifTok t (.setTok t false) (.seq (.setTok t true) partnerSetter))

/-- Token allocation of one `circular` call: the shared closure variable
`initial` starts as `true`. -/
def circularInit (st : State) : State × TokId :=
  ({ st with tokens := st.tokens ++ [true] }, st.tokens.length)

/-- Model of `circular(first, setFirst, second, setSecond)`: allocate the
shared token as `true`, then install the two internal autoruns — the
first reads `first` and propagates through `setSecond`, the second reads
`second` and propagates through `setFirst`.  Returns the two computation
ids; the returned stop function disposes both. -/
def circularM (fuel : Nat) (st : State) (first : SigId) (setFirst : Cmd)
    (second : SigId) (setSecond : Cmd) : Option (State × CompId × CompId) :=
  let (st0, t) := circularInit st
  match autorunM fuel st0 (circularBody t first setSecond) with
  | none => none
  | some (st1, c1) =>
    (autorunM fuel st1 (circularBody t second setFirst)).map (fun p => (p.1, c1, p.2))

/-- Run a sequence of external write calls `v(w)` against a variable, each
call with its own fresh fuel (each call either completes synchronously or
the whole run is reported as failed). -/
def runWrites (st : State) (s : SigId) : List Int → Option State
  | [] => some st
  | w :: rest => (varCall 20 st s (.num w)).bind (fun p => runWrites p.1 s rest)

/-- Body of the counting autorun of Scenario C:
`() => { count++; number(); double() }`. -/
def counterBodyC : Cmd := .seq (.incr 0) (.seq (.readE (.readV 0)) (.readE (.readV 1)))

/-- Scenario C first setter argument, `() => number(double() / 2)`:
Signal 0 is `number`, Signal 1 is `double`. -/
def setFirstCmd : Cmd := .writeV 0 (.div2 (.readV 1))

/-- Scenario C second setter argument, `() => double(number() * 2)`. -/
def setSecondCmd : Cmd := .writeV 1 (.mul2 (.readV 0))

/-- Scenario C after `number = variable(0)`, `double = variable(0)` and the
counting autorun have been created. -/
def scenC_install : Option State :=
  let st := initState 1
  let (st1, _) := newVariable st (.num 0)
  let (st2, _) := newVariable st1 (.num 0)
  (autorunM 10 st2 counterBodyC).map (fun p => p.1)

/-- Scenario C after
`circular(number, () => number(double()/2), double, () => double(number()*2))`. -/
def scenC_bound : Option State :=
  scenC_install.bind (fun st => (circularM 10 st 0 setFirstCmd 1 setSecondCmd).map (fun p => p.1))

/-- Scenario C after the subsequent `number(2)`. -/
def scenC_afterNum2 : Option State :=
  scenC_bound.bind (fun st => (varCall 10 st 0 (.num 2)).map (fun p => p.1))

/-- Scenario C after the final `double(2)`. -/
def scenC_afterDbl2 : Option State :=
  scenC_afterNum2.bind (fun st => (varCall 10 st 1 (.num 2)).map (fun p => p.1))

/-- A read call `v()` performed from outside any computation, returning
just the value. -/
def readNow (st : State) (s : SigId) : Option Value :=
  (varCall 10 st s .undef).map (fun p => p.2)

/-- Partner setter used in the single-run analysis of the first internal
computation of `circular`: write `double(number() * 2)` (Signal 0 is the
computation's own signal, Signal 1 the partner's). -/
def circPartnerW : Cmd := .writeV 1 (.mul2 (.readV 0))

/-- Partner setter for the second internal computation:
`number(double() / 2)` (Signal 1 is its own signal, Signal 0 the partner). -/
def circPartnerW2 : Cmd := .writeV 0 (.div2 (.readV 1))

/-- A circular binding's first internal computation (id 0, subscribed to
its signal 0 valued 1, partner signal 1 valued 0), with the shared token
currently reading `b`. -/
def circRunState (b : Bool) : State :=
  ⟨[.num 1, .num 0], [[0], []], [⟨circularBody 0 0 circPartnerW, [0], false, .undef⟩],
   [b], none, .undef, [], [], 0⟩

/-- The same configuration but with the internal computation's body built
from claim C2's words instead of from the source. -/
def circRunStateClaim (b : Bool) : State :=
  ⟨[.num 1, .num 0], [[0], []], [⟨circularBodyClaim 0 0 circPartnerW, [0], false, .undef⟩],
   [b], none, .undef, [], [], 0⟩

/-- A circular binding's second internal computation (id 0, subscribed to
its signal 1 valued 4, partner signal 0 valued 0), token reading `b`. -/
def circRunState2 (b : Bool) : State :=
  ⟨[.num 0, .num 4], [[], [0]], [⟨circularBody 0 1 circPartnerW2, [1], false, .undef⟩],
   [b], none, .undef, [], [], 0⟩

/-- Subscriber body of the autorun tests: read the variable of Signal 0,
then increment external counter `k` (`() => { count(); runCount++ }`). -/
def subBody (k : Nat) : Cmd := .seq (.readE (.readV 0)) (.incr k)

/-- Setup for claim C3: one variable (initial value 0) and two autoruns
that each read it and bump their own counter. -/
def scenC3_setup : Option State :=
  let st := initState 2
  let (st1, _) := newVariable st (.num 0)
  (autorunM 10 st1 (subBody 0)).bind (fun p =>
    (autorunM 10 p.1 (subBody 1)).map (fun q => q.1))

/-- The canonical state of the C3 system: the signal holds `v`, both
computations are subscribed in order, the counters read `n0` and `n1`,
and `r` computation runs have happened. -/
def c3State (v : Value) (n0 n1 : Int) (r : Nat) : State :=
  ⟨[v], [[0, 1]], [⟨subBody 0, [0], false, .undef⟩, ⟨subBody 1, [0], false, .undef⟩],
   [], none, .undef, [n0, n1], [], r⟩

/-- Scenario B: Scenario A (variable 0, autorun reading it, writes 1 and 2,
counter at 3) followed by `stop()`. -/
def scenB_stopped : Option State :=
  let st := initState 1
  let (st1, _) := newVariable st (.num 0)
  (autorunM 10 st1 (subBody 0)).bind (fun p =>
    (runWrites p.1 0 [1, 2]).map (fun st2 => stopM st2 p.2))

/-- The canonical stopped state of Scenario B: the computation disposed,
subscribed to no Signal, counter at `n`, `r` runs performed. -/
def c4Stopped (v : Value) (n : Int) (r : Nat) : State :=
  ⟨[v], [[]], [⟨subBody 0, [], true, .undef⟩], [], none, .undef, [n], [], r⟩

/-- Body for claim C5: log the received argument (the previous run's
return value), read the variable of Signal 0, and return
`(prev === undefined ? 0 : prev) + 1`. -/
def bodyC5 : Cmd :=
  .seq .logPrev (.seq (.readE (.readV 0)) (.setRes (.inc (.prevOr (.num 0)))))

/-- Claim C5 system immediately after `autorun(f)` returned its stop
function: any run it performed is already visible in the state. -/
def scenC5_install : Option State :=
  let st := initState 0
  let (st1, _) := newVariable st (.num 0)
  (autorunM 10 st1 bodyC5).map (fun p => p.1)

/-- Claim C5 system after a subsequent write of 5. -/
def scenC5_w1 : Option State :=
  scenC5_install.bind (fun st => (varCall 10 st 0 (.num 5)).map (fun q => q.1))

/-- Claim C5 system after a further write of 7. -/
def scenC5_w2 : Option State :=
  scenC5_w1.bind (fun st => (varCall 10 st 0 (.num 7)).map (fun q => q.1))

/-- Body for claim C6: read Signal 0 (tracked), log the result of an
untracked read of Signal 1, perform an untracked write of 5 into Signal 2
(a side effect that must still occur), and bump the counter. -/
def bodyC6 : Cmd :=
  .seq (.readE (.readV 0))
    (.seq (.logE (.untrackE (.readV 1)))
      (.seq (.untrackC (.writeV 2 (.lit (.num 5)))) (.incr 0)))

/-- Claim C6 system after installing the autorun: Signal 0 holds 10,
Signal 1 holds 20, Signal 2 held 0. -/
def scenC6_install : Option State :=
  let st := initState 1
  let (st1, _) := newVariable st (.num 10)
  let (st2, _) := newVariable st1 (.num 20)
  let (st3, _) := newVariable st2 (.num 0)
  (autorunM 10 st3 bodyC6).map (fun p => p.1)

/-- Claim C6 system after writing 99 into the untracked-read Signal 1. -/
def scenC6_wB : Option State :=
  scenC6_install.bind (fun st => (varCall 10 st 1 (.num 99)).map (fun q => q.1))

/-- Claim C6 system after additionally writing 7 into the tracked Signal 0. -/
def scenC6_wA : Option State :=
  scenC6_wB.bind (fun st => (varCall 10 st 0 (.num 7)).map (fun q => q.1))

/-- Model of a JavaScript property descriptor as `_reactive` inspects it:
presence of a getter and of a setter, the data value (`undef` when
absent), and the `writable` / `enumerable` / `configurable` flags. -/
structure Descriptor where
  hasGet : Bool
  hasSet : Bool
  value : Value
  writable : Bool
  enumerable : Bool
  configurable : Bool
deriving DecidableEq, Repr

/-- Effect of `_reactive(obj, propName)` on the property's descriptor,
translated from the source: the input is the inherited descriptor (or
`none` when the property does not exist) and the output is the resulting
descriptor together with the number of `console.warn` diagnostics
emitted.  If the descriptor has a getter or a setter but not both, or is a
non-writable data property, the function warns and returns early — the
descriptor is left untouched and, the function being total, the program is
not aborted.  Otherwise it installs an accessor descriptor
`{configurable: true, enumerable: true, ...descriptor, get, set}` (the
original descriptor's own `enumerable`/`configurable` flags survive the
spread; its `get`/`set` or `value`/`writable` members were deleted). -/
def reactiveProp : Option Descriptor → Option Descriptor × Nat
  | some d =>
    if d.hasGet || d.hasSet then
      if !(d.hasGet && d.hasSet) then (some d, 1)
      else (some ⟨true, true, .undef, false, d.enumerable, d.configurable⟩, 0)
    else
      if !d.writable then (some d, 1)
      else (some ⟨true, true, .undef, false, d.enumerable, d.configurable⟩, 0)
  | none => (some ⟨true, true, .undef, false, true, true⟩, 0)

/-- Body for the C10 counterexample: an autorun that reads the variable of
Signal 0 and, whenever it reads 2, writes 0 back into it. -/
def bodyC10 : Cmd := .ifEqK (.readV 0) (.num 2) (.writeV 0 (.lit (.num 0))) .skip

/-- C10 counterexample system: the variable (Signal 0, value 0) with the
rewriting autorun installed. -/
def scenC10_setup : Option State :=
  (autorunM 10 (newVariable (initState 0) (.num 0)).1 bodyC10).map (fun p => p.1)

/-!
### Theorems

Auxiliary lemmas and, for each claim, its theorem (with counterexamples
and witnesses where applicable).
-/

/-- C2, counterexample: the claim's token polarity is inverted relative to
the code.  At the concrete input where the token reads `true`, a run of
the source's internal computation flips the token to `false` and DOES
propagate — it invokes the partner's setter, writing `2 * 1` into the
partner signal — whereas executing the mechanism exactly as the claim
words it leaves the partner signal untouched. -/
theorem claim_C2_counterexample :
    (runComp 10 (circRunState true) 0).map (fun st => (tokVal st 0, sigValue st 1)) =
      some (false, .num 2) ∧
    (runComp 10 (circRunStateClaim true) 0).map (fun st => (tokVal st 0, sigValue st 1)) =
      some (false, .num 0) ∧
    (runComp 10 (circRunState true) 0).map (fun st => sigValue st 1) ≠
      (runComp 10 (circRunStateClaim true) 0).map (fun st => sigValue st 1) := by
  refine ⟨rfl, rfl, by decide⟩

/-- Auxiliary: a list of tokens extended with `true` reads `true` at the
fresh index. -/
theorem tok_append_getD (l : List Bool) : (l ++ [true]).getD l.length true = true := by
  induction l with
  | nil => rfl
  | cons h t ih => simp [ih]

/-- C2, amended: the single shared boolean token starts as `true`; every
run of either internal computation toggles it; a run that observes the
token as `true` flips it to `false` AND propagates by invoking the
partner's setter, and a run that observes the token as `false` flips it to
`true` and performs no propagation. -/
theorem claim_C2_amended :
    (∀ st : State, tokVal (circularInit st).1 (circularInit st).2 = true) ∧
    (∀ b : Bool,
      (runComp 10 (circRunState b) 0).map (fun st => (tokVal st 0, sigValue st 1)) =
        some (!b, if b then .num 2 else .num 0)) ∧
    (∀ b : Bool,
      (runComp 10 (circRunState2 b) 0).map (fun st => (tokVal st 0, sigValue st 0)) =
        some (!b, if b then .num 2 else .num 0)) := by
  refine ⟨?_, ?_, ?_⟩
  · intro st
    simp [tokVal, circularInit, tok_append_getD st.tokens]
  · intro b; cases b <;> rfl
  · intro b; cases b <;> rfl

/-- Auxiliary: the C3 setup reaches the canonical state with both counters
at 1 (the run at subscription time) after two runs. -/
theorem scenC3_setup_eq : scenC3_setup = some (c3State (.num 0) 1 1 2) := rfl

/-- Auxiliary: one external write call on the canonical C3 state re-runs
each subscriber exactly once — whatever value is written, equal to the
current one or not — incrementing both counters, and returns the written
value. -/
theorem c3_write_step (v : Value) (n0 n1 : Int) (r : Nat) (w : Int) :
    varCall 20 (c3State v n0 n1 r) 0 (.num w) =
      some (c3State (.num w) (n0 + 1) (n1 + 1) (r + 2), .num w) := rfl

/-- Auxiliary: a sequence of writes from the canonical C3 state bumps each
subscriber's counter exactly once per write. -/
theorem c3_runWrites (ws : List Int) : ∀ (v : Value) (n0 n1 : Int) (r : Nat),
    (runWrites (c3State v n0 n1 r) 0 ws).map (fun st => st.counters) =
      some [n0 + ws.length, n1 + ws.length] := by
  induction ws with
  | nil => intro v n0 n1 r; simp [runWrites, c3State]
  | cons w rest ih =>
    intro v n0 n1 r
    rw [runWrites, c3_write_step]
    simp only [Option.some_bind]
    rw [ih]
    simp only [List.length_cons, Nat.cast_add, Nat.cast_one, Option.some.injEq,
      List.cons.injEq, and_true]
    constructor <;> ring

/-- C3: each subscriber of the signal runs once at subscription time, and
every sequence of write calls — including writes of values equal to the
current one, which are never skipped — triggers exactly one re-run of each
subscriber per write: after `ws`, each counter reads `1 + ws.length`. -/
theorem claim_C3_one_rerun_per_write :
    scenC3_setup.map (fun st => st.counters) = some [1, 1] ∧
    ∀ ws : List Int,
      (scenC3_setup.bind (fun st => runWrites st 0 ws)).map (fun st => st.counters) =
        some [1 + (ws.length : Int), 1 + (ws.length : Int)] := by
  refine ⟨rfl, ?_⟩
  intro ws
  rw [scenC3_setup_eq]
  simp only [Option.some_bind]
  exact c3_runWrites ws (.num 0) 1 1 2

/-- Auxiliary: Scenario B reaches the canonical stopped state at counter 3. -/
theorem scenB_stopped_eq : scenB_stopped = some (c4Stopped (.num 2) 3 3) := rfl

/-- Auxiliary: a write to the signal after `stop()` stores the value but
re-runs nothing: the counter and the run count are untouched. -/
theorem c4_write_step (v : Value) (n : Int) (r : Nat) (w : Int) :
    varCall 20 (c4Stopped v n r) 0 (.num w) = some (c4Stopped (.num w) n r, .num w) := rfl

/-- Auxiliary: no sequence of writes after `stop()` changes the counter or
the run count. -/
theorem c4_runWrites (ws : List Int) : ∀ (v : Value) (n : Int) (r : Nat),
    (runWrites (c4Stopped v n r) 0 ws).map (fun st => (st.counters, st.runs)) =
      some ([n], r) := by
  induction ws with
  | nil => intro v n r; simp [runWrites, c4Stopped]
  | cons w rest ih =>
    intro v n r
    rw [runWrites, c4_write_step]
    simp only [Option.some_bind]
    rw [ih]

/-- C4: disposal is idempotent on every state — stopping twice produces
exactly the same state as stopping once — and in Scenario B, after
`stop()` the counter stands at 3 and subsequent writes to the signal the
computation had been reading re-run nothing: counter and run count stay
put for every sequence of further writes. -/
theorem claim_C4_stop_idempotent :
    (∀ (st : State) (cid : CompId), stopM (stopM st cid) cid = stopM st cid) ∧
    scenB_stopped.map (fun st => st.counters) = some [3] ∧
    (∀ ws : List Int,
      (scenB_stopped.bind (fun st => runWrites st 0 ws)).map
          (fun st => (st.counters, st.runs)) = some ([3], 3)) := by
  refine ⟨?_, rfl, ?_⟩
  · intro st cid
    have hsubs : ∀ (l : List (List CompId)),
        (l.map (fun l => l.filter (fun c => c ≠ cid))).map
            (fun l => l.filter (fun c => c ≠ cid))
          = l.map (fun l => l.filter (fun c => c ≠ cid)) := by
      intro l
      simp [List.map_map, Function.comp, List.filter_filter]
    unfold stopM
    cases h : st.comps.get? cid with
    | none =>
      simp only [h]
      simp [hsubs]
    | some c =>
      simp only [h]
      have h2 : (st.comps.set cid { c with deps := [], disposed := true }).get? cid =
          some { c with deps := [], disposed := true } := by
        rw [List.get?_set_eq]
        rw [h]
        rfl
      rw [h2]
      simp [hsubs, List.set_set]
  · intro ws
    rw [scenB_stopped_eq]
    simp only [Option.some_bind]
    exact c4_runWrites ws (.num 2) 3 3

/-- C5: `autorun(f)` executes `f` exactly once, synchronously, before
returning (the returned state already shows run count 1), with no argument
on that first run (the logged argument is `undefined`); each subsequent
re-run receives the value returned by the previous run — here the body
returns `(prev ?? 0) + 1`, so the second run receives 1 and the third
receives 2. -/
theorem claim_C5_autorun_prev_value :
    (scenC5_install.map (fun st => (st.runs, st.log)) = some (1, [.undef])) ∧
    (scenC5_w1.map (fun st => st.log) = some [.undef, .num 1]) ∧
    (scenC5_w2.map (fun st => st.log) = some [.undef, .num 1, .num 2]) :=
  ⟨rfl, rfl, rfl⟩

/-- C6: `untrack(fn)` returns exactly `fn`'s result (first conjunct, for
every state, previous value and expression: the value of an untracked
evaluation is the value `fn` computes with no active listener); signals
read inside the untrack are not added to the enclosing computation's
dependency set (after installation the computation's dependency set is
just Signal 0, Signal 1 has no subscriber, and the logged untrack result
is Signal 1's value 20), while side effects still occur (the untracked
write stored 5 in Signal 2); a later write to the untracked Signal 1 does
not re-run the computation (counter and run count unchanged, though the
value is stored), while a write to the tracked Signal 0 does. -/
theorem claim_C6_untrack :
    (∀ (st : State) (prev : Value) (e : Expr),
      (evalExpr prev st (.untrackE e)).2 = (evalExpr prev { st with listener := none } e).2) ∧
    (scenC6_install.map (fun st =>
        (st.counters, st.log, sigSubs st 0, sigSubs st 1, sigSubs st 2, sigValue st 2,
         (st.comps.get? 0).map (fun c => c.deps))) =
      some ([1], [.num 20], [0], [], [], .num 5, some [0])) ∧
    (scenC6_wB.map (fun st => (st.counters, st.runs, sigValue st 1)) =
      some ([1], 1, .num 99)) ∧
    (scenC6_wA.map (fun st => st.counters) = some [2]) :=
  ⟨fun _ _ _ => rfl, rfl, rfl, rfl⟩

/-- C7: applying the reactive decorator to an accessor with only a getter
or only a setter, or to a non-writable data property, logs exactly one
diagnostic warning and skips the operation — the descriptor is returned
unmodified and no abort occurs. -/
theorem claim_C7_reactive_warning :
    ∀ d : Descriptor,
      ((d.hasGet || d.hasSet) = true → (d.hasGet && d.hasSet) = false →
        reactiveProp (some d) = (some d, 1)) ∧
      (d.hasGet = false → d.hasSet = false → d.writable = false →
        reactiveProp (some d) = (some d, 1)) := by
  intro d
  constructor
  · intro h1 h2; simp [reactiveProp, h1, h2]
  · intro h1 h2 h3; simp [reactiveProp, h1, h2, h3]

/-- C7 witness: a getter-only accessor and a non-writable data property
are both skipped with one warning. -/
theorem claim_C7_reactive_warning_witness :
    reactiveProp (some ⟨true, false, .undef, false, true, true⟩) =
        (some ⟨true, false, .undef, false, true, true⟩, 1) ∧
    reactiveProp (some ⟨false, false, .num 1, false, true, true⟩) =
        (some ⟨false, false, .num 1, false, true, true⟩, 1) :=
  ⟨(claim_C7_reactive_warning ⟨true, false, .undef, false, true, true⟩).1 rfl rfl,
   (claim_C7_reactive_warning ⟨false, false, .num 1, false, true, true⟩).2 rfl rfl rfl⟩

/-- C8: for a variable handle, `get` (and the destructured slot `[0]`)
behaves exactly as the zero-argument call form, and `set y` (and slot
`[1]`) exactly as the one-argument call form for every defined `y`: the
bound `readVariable`/`writeVariable` functions just delegate to the
callable. -/
theorem claim_C8_handle_equivalence :
    ∀ (s : SigId) (fuel : Nat) (st : State) (y : Value),
      ((mkVariable s).get fuel st = (mkVariable s).call .undef fuel st) ∧
      (y ≠ .undef → (mkVariable s).set y fuel st = (mkVariable s).call y fuel st) ∧
      ((mkVariable s).idx0 fuel st = (mkVariable s).get fuel st) ∧
      ((mkVariable s).idx1 y fuel st = (mkVariable s).set y fuel st) :=
  fun _ _ _ _ => ⟨rfl, fun _ => rfl, rfl, rfl⟩

/-- C8 witness: the `set`/call agreement instantiated at a concrete
defined value. -/
theorem claim_C8_handle_equivalence_witness :
    (Value.num 3 ≠ Value.undef) ∧
    (mkVariable 0).set (.num 3) 1 (initState 0) = (mkVariable 0).call (.num 3) 1 (initState 0) :=
  ⟨by decide, (claim_C8_handle_equivalence 0 1 (initState 0) (.num 3)).2.1 (by decide)⟩

/-- Auxiliary: dependency tracking touches only the subscription and
dependency bookkeeping — signal values, run count and counters are
untouched. -/
theorem trackRead_fields (st : State) (s : SigId) :
    (trackRead st s).sigVals = st.sigVals ∧ (trackRead st s).runs = st.runs ∧
      (trackRead st s).counters = st.counters := by
  unfold trackRead
  split
  · exact ⟨rfl, rfl, rfl⟩
  · dsimp only
    split <;> exact ⟨rfl, rfl, rfl⟩

/-- C9: for every variable and state, calling with `undefined` performs a
read: the call returns the current value together with a state touched
only by dependency tracking — stored signal values, run count and external
counters are all unchanged, and the value of the signal itself is
preserved; moreover `v.set undefined` (and hence the destructured setter
at `undefined`) is the very same call. -/
theorem claim_C9_undefined_is_read :
    ∀ (fuel : Nat) (st : State) (s : SigId),
      varCall fuel st s .undef = some (trackRead st s, sigValue st s) ∧
      (trackRead st s).sigVals = st.sigVals ∧
      (trackRead st s).runs = st.runs ∧
      (trackRead st s).counters = st.counters ∧
      sigValue (trackRead st s) s = sigValue st s ∧
      (mkVariable s).set .undef fuel st = varCall fuel st s .undef := by
  intro fuel st s
  obtain ⟨h1, h2, h3⟩ := trackRead_fields st s
  exact ⟨by simp [varCall], h1, h2, h3, by simp [sigValue, h1], rfl⟩

/-- C10, counterexample: with a subscriber that writes the variable back
during propagation, `v(2)` returns 2 but the immediately following read
yields 0 — the claim's "an immediately following read returns that same x"
fails on the code for this variable and this defined value. -/
theorem claim_C10_counterexample :
    (scenC10_setup.bind (fun st =>
        (varCall 10 st 0 (.num 2)).map (fun p => (p.2, sigValue p.1 0)))) =
      some (.num 2, .num 0) ∧
    Value.num 0 ≠ Value.num 2 :=
  ⟨rfl, by decide⟩

/-- C10, amended: for every variable and defined value `x` — including
function values — `v(x)` wraps `x` in a thunk, the underlying setter
unwraps exactly `x` again (so `x` itself is never invoked as an updater),
and when the variable has no subscribers the call returns `x`, the stored
value is exactly `x`, and an immediately following read returns that same
`x`; with subscribers present a subscriber may write `v` again during
propagation, in which case the read may differ. -/
theorem claim_C10_amended :
    ∀ (st : State) (s : SigId) (x : Value) (fuel : Nat),
      x ≠ .undef → sigSubs st s = [] →
      varCall fuel st s x = some ({ st with sigVals := st.sigVals.set s x }, x) ∧
      applyUpdater (.fnv x) (sigValue st s) = x ∧
      (s < st.sigVals.length → sigValue { st with sigVals := st.sigVals.set s x } s = x) := by
  intro st s x fuel hx hsubs
  refine ⟨?_, rfl, ?_⟩
  · simp only [varCall, if_neg hx, setSignal, applyUpdater, writeSignal, writeSignalF]
    have hs : sigSubs { st with sigVals := st.sigVals.set s x } s = [] := hsubs
    rw [hs]
    rfl
  · intro hlen
    show ((st.sigVals.set s x).get? s).getD .undef = x
    rw [List.get?_set_eq]
    cases h4 : st.sigVals.get? s with
    | none => exact absurd (List.get?_eq_none.mp h4) (Nat.not_le.mpr hlen)
    | some v => simp

/-- C10 witness: the amended statement instantiated with a function value
written into a subscriber-free variable: the function is stored as-is and
read back uninvoked. -/
theorem claim_C10_amended_witness :
    varCall 0 ⟨[.num 0], [[]], [], [], none, .undef, [], [], 0⟩ 0 (.fnv (.num 7)) =
        some (⟨[.fnv (.num 7)], [[]], [], [], none, .undef, [], [], 0⟩, .fnv (.num 7)) ∧
    sigValue ⟨[.fnv (.num 7)], [[]], [], [], none, .undef, [], [], 0⟩ 0 = .fnv (.num 7) :=
  ⟨(claim_C10_amended ⟨[.num 0], [[]], [], [], none, .undef, [], [], 0⟩ 0
      (.fnv (.num 7)) 0 (by decide) rfl).1,
   (claim_C10_amended ⟨[.num 0], [[]], [], [], none, .undef, [], [], 0⟩ 0
      (.fnv (.num 7)) 0 (by decide) rfl).2.2 (by decide)⟩

/-- C1: starting from fresh state, the exact Scenario C trace holds: the
counting autorun has run once after installation (counter 1); installing
the circular binding runs it once more (counter 2); `number(2)` brings the
counter to 4 with `number() == 2` and `double() == 4`; `double(2)` brings
the counter to 6 with `number() == 1` and `double() == 2`. -/
theorem claim_C1_scenarioC_trace :
    scenC_install.map (fun st => st.counters) = some [1] ∧
    scenC_bound.map (fun st => st.counters) = some [2] ∧
    scenC_afterNum2.map (fun st => st.counters) = some [4] ∧
    scenC_afterNum2.bind (fun st => readNow st 0) = some (.num 2) ∧
    scenC_afterNum2.bind (fun st => readNow st 1) = some (.num 4) ∧
    scenC_afterDbl2.map (fun st => st.counters) = some [6] ∧
    scenC_afterDbl2.bind (fun st => readNow st 0) = some (.num 1) ∧
    scenC_afterDbl2.bind (fun st => readNow st 1) = some (.num 2) := by
  refine ⟨rfl, rfl, rfl, rfl, rfl, rfl, rfl, rfl⟩

end LumeVariable
